import Mathlib

/-!
Shallow embedding of libvirt's unified Xen driver (`src/xen/xen_driver.c`),
the multi-backend dispatch and compatibility-routing layer for a Xen
connection.  Definitions translate the C source; external collaborators
(the five sub-drivers, xenstore, the PCI layer, the filesystem) are
modelled as oracles recording their outcomes, so that routing, ordering
and unwinding decisions of the unified layer itself become pure functions
that can be stated and proved about.
-/

set_option maxHeartbeats 1000000

namespace XenUnified

/-- The five sub-driver slots of the unified driver.  Registry (slot)
order follows `xen_driver.h`: hypervisor 0, XenD 1, XS 2, XM 3,
inotify 4 — the order used by the static `drivers[]` table and by the
indexed loops of the dispatch functions. -/
inductive Backend where
  | hypervisor
  | xend
  | xs
  | xm
  | inotify
deriving DecidableEq, Repr

/-- Registry order of the backend slots (index 0 first). -/
def registryOrder : List Backend :=
  [Backend.hypervisor, Backend.xend, Backend.xs, Backend.xm, Backend.inotify]

/-- Modelled from the spec: the legacy-threshold version constants of the
xend protocol negotiation (`XEND_CONFIG_VERSION_3_0_3` and
`XEND_CONFIG_VERSION_3_0_4` from the Xen driver headers, which are not
part of `src/`); consecutive integers, so `v <= 3_0_3` coincides with
`v < 3_0_4`. -/
def XEND_CONFIG_VERSION_3_0_3 : Int := 2

/-- Modelled from the spec: see `XEND_CONFIG_VERSION_3_0_3`. -/
def XEND_CONFIG_VERSION_3_0_4 : Int := 3

/-! ## Connection open: URI acceptance decision (`xenUnifiedConnectOpen`, first half) -/

/-- The three-valued open decision (`virDrvOpenStatus`):
`VIR_DRV_OPEN_SUCCESS` (the unified layer accepts and proceeds to open
backends), `VIR_DRV_OPEN_DECLINED`, `VIR_DRV_OPEN_ERROR`. -/
inductive OpenDecision where
  | accepted
  | declined
  | error
deriving DecidableEq, Repr

/-- The parts of a parsed connection URI that `xenUnifiedConnectOpen`
inspects. -/
structure XenURI where
  scheme : Option String
  server : Option String
  path : Option String
deriving DecidableEq, Repr

/-- ASCII lower-casing of a string, modelling the case-insensitive
scheme comparison (`STRCASEEQ`/`strcasecmp`) of the URI checks. -/
def asciiLower (s : String) : String :=
  String.mk (s.data.map Char.toLower)

/-- The gate of `xenUnifiedConnectOpen` (lines 300-342): privilege check,
URI scheme/path/server rules, and the optional libxl-era probe of a
running xend.  `probeXen` models `xenUnifiedProbe` (presence of the local
hypervisor marker), `withLibxl` the `WITH_LIBXL` compile flag, and
`xendRunning` the `xenUnifiedXendProbe` liveness check.  Case-insensitive
string comparison (`STRCASEEQ`) is modelled by comparing lower-cased
strings. -/
def xenUnifiedConnectOpenDecision (privileged : Bool) (uri : Option XenURI)
    (probeXen withLibxl xendRunning : Bool) : OpenDecision :=
  if !privileged then .declined
  else
    let cont : OpenDecision :=
      if withLibxl && !xendRunning then .declined else .accepted
    match uri with
    | none => if !probeXen then .declined else cont
    | some u =>
      match u.scheme with
      | none => .declined
      | some s =>
        if asciiLower s ≠ "xen" ∧ asciiLower s ≠ "http" then .declined
        else if (match u.path with
                 | some p => (p != "") && (p != "/")
                 | none => false) then .error
        else if asciiLower s = "xen" ∧ u.server.isSome then .declined
        else cont

/-! ## Connection open: backend activation and rollback (`xenUnifiedConnectOpen`, second half) -/

/-- Outcomes of the external steps taken during a connection open: each
sub-driver's open call, the capability build, the XML-option init, the
save-directory path allocation and creation, plus the negotiated xend
protocol version (stored by a successful `xenDaemonOpen`) and the
`WITH_XEN_INOTIFY` compile flag. -/
structure OpenCfg where
  hvOk : Bool
  xendOk : Bool
  xendConfigVersion : Int
  xmOk : Bool
  xsOk : Bool
  capsOk : Bool
  xmloptOk : Bool
  withInotify : Bool
  inotifyOk : Bool
  strdupOk : Bool
  mkdirOk : Bool
deriving DecidableEq, Repr

/-- The per-session activation vector `priv->opened[]`. -/
structure OpenedFlags where
  hv : Bool := false
  xend : Bool := false
  xs : Bool := false
  xm : Bool := false
  inotify : Bool := false
deriving DecidableEq, Repr

/-- Read the activation flag of a backend slot. -/
def OpenedFlags.get (f : OpenedFlags) : Backend → Bool
  | .hypervisor => f.hv
  | .xend => f.xend
  | .xs => f.xs
  | .xm => f.xm
  | .inotify => f.inotify

/-- Observable backend events of a connection open: a sub-driver open
that succeeded (setting its activation flag) and a sub-driver close. -/
inductive Event where
  | openB (b : Backend)
  | closeB (b : Backend)
deriving DecidableEq, Repr

/-- Successful sub-driver opens of a trace, in order. -/
def openSeq (t : List Event) : List Backend :=
  t.filterMap fun e => match e with | .openB b => some b | .closeB _ => none

/-- Sub-driver closes of a trace, in order. -/
def closeSeq (t : List Event) : List Backend :=
  t.filterMap fun e => match e with | .closeB b => some b | .openB _ => none

/-- The `error:` label of `xenUnifiedConnectOpen` (lines 431-449): close
every sub-driver whose activation flag is set, in the fixed textual order
inotify, XM, XS, XenD, hypervisor (the inotify close is compiled only
under `WITH_XEN_INOTIFY`). -/
def unwindCloses (withInotify : Bool) (f : OpenedFlags) : List Event :=
  (if withInotify && f.inotify then [Event.closeB .inotify] else []) ++
  (if f.xm then [Event.closeB .xm] else []) ++
  (if f.xs then [Event.closeB .xs] else []) ++
  (if f.xend then [Event.closeB .xend] else []) ++
  (if f.hv then [Event.closeB .hypervisor] else [])

/-- Result of a connection open run: whether it returned
`VIR_DRV_OPEN_SUCCESS`, the event trace, the final activation flags, and
whether the private Session object and its mutex were torn down
(`conn->privateData = NULL`). -/
structure OpenOutcome where
  success : Bool
  trace : List Event
  opened : OpenedFlags
  privFreed : Bool
  mutexDestroyed : Bool
deriving DecidableEq, Repr

/-- Build the failed-open outcome: run the `error:` unwind against the
current activation flags, destroy the mutex, free the Session. -/
def openError (withInotify : Bool) (f : OpenedFlags) (t : List Event) : OpenOutcome :=
  { success := false
    trace := t ++ unwindCloses withInotify f
    opened := f
    privFreed := true
    mutexDestroyed := true }

/-- Tail of the open sequence after the inotify step: save-directory path
allocation (`strdup(XEN_SAVE_DIR)`) and creation (`virFileMakePath`). -/
def openTail (cfg : OpenCfg) (f : OpenedFlags) (t : List Event) : OpenOutcome :=
  if !cfg.strdupOk then openError cfg.withInotify f t
  else if !cfg.mkdirOk then openError cfg.withInotify f t
  else
    { success := true, trace := t, opened := f
      privFreed := false, mutexDestroyed := false }

/-- Open steps from the XS sub-driver onwards: XS open, capability build,
XML-option init, inotify open (when compiled in), then the tail. -/
def openFromXs (cfg : OpenCfg) (f : OpenedFlags) (t : List Event) : OpenOutcome :=
  if !cfg.xsOk then openError cfg.withInotify f t
  else
    let f := { f with xs := true }
    let t := t ++ [Event.openB .xs]
    if !cfg.capsOk then openError cfg.withInotify f t
    else if !cfg.xmloptOk then openError cfg.withInotify f t
    else if cfg.withInotify then
      if !cfg.inotifyOk then openError cfg.withInotify f t
      else openTail cfg { f with inotify := true } (t ++ [Event.openB .inotify])
    else openTail cfg f t

/-- The backend-activation phase of `xenUnifiedConnectOpen` (lines
371-450): hypervisor and XenD opens are mandatory; the XM open is
attempted (and then mandatory) only when the negotiated version is at or
below `XEND_CONFIG_VERSION_3_0_3`; then XS, capabilities, XML options,
inotify (when compiled in) and the save directory.  Any failure jumps to
the `error:` unwind. -/
def xenUnifiedConnectOpenBackends (cfg : OpenCfg) : OpenOutcome :=
  let f0 : OpenedFlags := {}
  if !cfg.hvOk then openError cfg.withInotify f0 []
  else
    let f1 : OpenedFlags := { f0 with hv := true }
    let t1 := [Event.openB .hypervisor]
    if !cfg.xendOk then openError cfg.withInotify f1 t1
    else
      let f2 : OpenedFlags := { f1 with xend := true }
      let t2 := t1 ++ [Event.openB .xend]
      if cfg.xendConfigVersion ≤ XEND_CONFIG_VERSION_3_0_3 then
        if !cfg.xmOk then openError cfg.withInotify f2 t2
        else openFromXs cfg { f2 with xm := true } (t2 ++ [Event.openB .xm])
      else openFromXs cfg f2 t2

/-- All mandatory open steps succeed for this configuration. -/
def openAllOk (cfg : OpenCfg) : Bool :=
  cfg.hvOk && cfg.xendOk &&
  (if cfg.xendConfigVersion ≤ XEND_CONFIG_VERSION_3_0_3 then cfg.xmOk else true) &&
  cfg.xsOk && cfg.capsOk && cfg.xmloptOk &&
  (if cfg.withInotify then cfg.inotifyOk else true) &&
  cfg.strdupOk && cfg.mkdirOk

/-! ## Pattern B: version-gated exclusive routing (autostart, max-memory, XML desc) -/

/-- Session state read by the version-gated (Pattern B) operations. -/
structure PatternBState where
  xendConfigVersion : Int
  openedXm : Bool
  openedXend : Bool
deriving DecidableEq, Repr

/-- The backend a Pattern-B operation ends up invoking (`unsupported`
models the `VIR_ERR_NO_SUPPORT` exit where no backend is called). -/
inductive Route where
  | xm
  | xend
  | hypervisor
  | unsupported
deriving DecidableEq, Repr

/-- Routing of `xenUnifiedDomainGetAutostart` (lines 1568-1583): below
`XEND_CONFIG_VERSION_3_0_4` the XM sub-driver (when activated), otherwise
the XenD sub-driver (when activated); `VIR_ERR_NO_SUPPORT` otherwise. -/
def xenUnifiedDomainGetAutostartRoute (p : PatternBState) : Route :=
  if p.xendConfigVersion < XEND_CONFIG_VERSION_3_0_4 then
    if p.openedXm then .xm else .unsupported
  else
    if p.openedXend then .xend else .unsupported

/-- Routing of `xenUnifiedDomainSetAutostart` (lines 1585-1600), same
shape as the getter. -/
def xenUnifiedDomainSetAutostartRoute (p : PatternBState) : Route :=
  if p.xendConfigVersion < XEND_CONFIG_VERSION_3_0_4 then
    if p.openedXm then .xm else .unsupported
  else
    if p.openedXend then .xend else .unsupported

/-- Routing of `xenUnifiedDomainSetMaxMemory` (lines 825-838): inactive
domains (`dom->id < 0`) are routed by version (XM below the threshold,
XenD at or above); active domains go to the hypervisor sub-driver. -/
def xenUnifiedDomainSetMaxMemoryRoute (p : PatternBState) (domId : Int) : Route :=
  if domId < 0 then
    if p.xendConfigVersion < XEND_CONFIG_VERSION_3_0_4 then .xm else .xend
  else .hypervisor

/-- Routing of `xenUnifiedDomainGetXMLDesc` (lines 1145-1167): inactive
domain and legacy version go to XM (when activated); otherwise XenD (when
activated); `VIR_ERR_NO_SUPPORT` when the chosen backend is inactive. -/
def xenUnifiedDomainGetXMLDescRoute (p : PatternBState) (domId : Int) : Route :=
  if domId = -1 ∧ p.xendConfigVersion < XEND_CONFIG_VERSION_3_0_4 then
    if p.openedXm then .xm else .unsupported
  else
    if p.openedXend then .xend else .unsupported

/-! ## Pattern A: the VCPU set/get dispatch chains (`xenUnifiedDomainSetVcpusFlags`,
`xenUnifiedDomainGetVcpusFlags`) -/

/-- Modelled from the spec: the live/config/maximum VCPU modifier flag
bits (`VIR_DOMAIN_VCPU_*` from the public libvirt headers, not part of
`src/`). -/
def VIR_DOMAIN_VCPU_LIVE : Nat := 1

/-- Modelled from the spec: see `VIR_DOMAIN_VCPU_LIVE`. -/
def VIR_DOMAIN_VCPU_CONFIG : Nat := 2

/-- Modelled from the spec: see `VIR_DOMAIN_VCPU_LIVE`. -/
def VIR_DOMAIN_VCPU_MAXIMUM : Nat := 4

/-- Error classes reported by the unified layer on its own exits. -/
inductive VirErr where
  | invalidArg
  | noSupport
deriving DecidableEq, Repr

/-- Integer return value, error reported by the unified layer itself (if
any), and the sub-drivers invoked, in order. -/
structure DispatchOut where
  ret : Int
  err : Option VirErr
  invoked : List Backend
deriving DecidableEq, Repr

/-- Oracle for the VCPU-count operations: which sub-drivers are
activated, the integer each sub-driver call would return (`-2` being the
internal soft-decline sentinel of the XenD/XM sub-drivers), and the
outcomes of the direct hypervisor calls (`xenHypervisorSetVcpus` returns
0 or -1; `xenHypervisorGetVcpuMax` returns a count or -1). -/
structure VcpuCtx where
  openedXend : Bool
  openedXm : Bool
  xendSetR : Int
  xmSetR : Int
  hvSetOk : Bool
  xendGetR : Int
  xmGetR : Int
  hvMax : Option Nat
deriving DecidableEq, Repr

/-- The fallback chain of `xenUnifiedDomainSetVcpusFlags` (lines
1041-1058): XenD first, then XM, each skipped when inactive and fallen
through on the `-2` sentinel; last, the direct hypervisor call, only for
`flags == VIR_DOMAIN_VCPU_LIVE`; otherwise `VIR_ERR_NO_SUPPORT`. -/
def setVcpusResolve (c : VcpuCtx) (flags : Nat) : DispatchOut :=
  let s3 : DispatchOut :=
    if flags = VIR_DOMAIN_VCPU_LIVE then
      ⟨if c.hvSetOk then 0 else -1, none, [Backend.hypervisor]⟩
    else ⟨-1, some .noSupport, []⟩
  let s2 : DispatchOut :=
    if c.openedXm then
      if c.xmSetR ≠ -2 then ⟨c.xmSetR, none, [Backend.xm]⟩
      else ⟨s3.ret, s3.err, Backend.xm :: s3.invoked⟩
    else s3
  if c.openedXend then
    if c.xendSetR ≠ -2 then ⟨c.xendSetR, none, [Backend.xend]⟩
    else ⟨s2.ret, s2.err, Backend.xend :: s2.invoked⟩
  else s2

/-- `xenUnifiedDomainSetVcpusFlags` (lines 1015-1059): flag-mask check
(`virCheckFlags`), flag-combination and range validation, then the
fallback chain. -/
def xenUnifiedDomainSetVcpusFlags (c : VcpuCtx) (nvcpus : Nat) (flags : Nat) : DispatchOut :=
  if flags &&& (VIR_DOMAIN_VCPU_LIVE ||| VIR_DOMAIN_VCPU_CONFIG ||| VIR_DOMAIN_VCPU_MAXIMUM)
      ≠ flags then
    ⟨-1, some .invalidArg, []⟩
  else if flags &&& (VIR_DOMAIN_VCPU_LIVE ||| VIR_DOMAIN_VCPU_CONFIG) = 0 ∨
          flags &&& (VIR_DOMAIN_VCPU_MAXIMUM ||| VIR_DOMAIN_VCPU_LIVE)
            = VIR_DOMAIN_VCPU_MAXIMUM ||| VIR_DOMAIN_VCPU_LIVE then
    ⟨-1, some .invalidArg, []⟩
  else if nvcpus = 0 ∨ nvcpus % 65536 ≠ nvcpus then
    ⟨-1, some .invalidArg, []⟩
  else setVcpusResolve c flags

/-- The fallback chain of `xenUnifiedDomainGetVcpusFlags` (lines
1121-1135): XenD then XM with the `-2` sentinel falling through; last,
`xenHypervisorGetVcpuMax`, only for `flags == (CONFIG | MAXIMUM)`. -/
def getVcpusResolve (c : VcpuCtx) (flags : Nat) : DispatchOut :=
  let s3 : DispatchOut :=
    if flags = VIR_DOMAIN_VCPU_CONFIG ||| VIR_DOMAIN_VCPU_MAXIMUM then
      ⟨match c.hvMax with | some n => (n : Int) | none => -1, none, [Backend.hypervisor]⟩
    else ⟨-1, some .noSupport, []⟩
  let s2 : DispatchOut :=
    if c.openedXm then
      if c.xmGetR ≠ -2 then ⟨c.xmGetR, none, [Backend.xm]⟩
      else ⟨s3.ret, s3.err, Backend.xm :: s3.invoked⟩
    else s3
  if c.openedXend then
    if c.xendGetR ≠ -2 then ⟨c.xendGetR, none, [Backend.xend]⟩
    else ⟨s2.ret, s2.err, Backend.xend :: s2.invoked⟩
  else s2

/-- `xenUnifiedDomainGetVcpusFlags` (lines 1111-1136): flag-mask check
then the fallback chain. -/
def xenUnifiedDomainGetVcpusFlags (c : VcpuCtx) (flags : Nat) : DispatchOut :=
  if flags &&& (VIR_DOMAIN_VCPU_LIVE ||| VIR_DOMAIN_VCPU_CONFIG ||| VIR_DOMAIN_VCPU_MAXIMUM)
      ≠ flags then
    ⟨-1, some .invalidArg, []⟩
  else getVcpusResolve c flags

/-! ## Scheduler-parameter dispatch (`xenUnifiedDomainGetSchedulerParametersFlags`,
`xenUnifiedDomainSetSchedulerParametersFlags`) -/

/-- The static `drivers[]` table (lines 84-88): only the hypervisor, XenD
and XM slots carry a function table; the XS and inotify slots are empty. -/
def driversPresent : Backend → Bool
  | .hypervisor => true
  | .xend => true
  | .xm => true
  | _ => false

/-- Oracle for the scheduler-parameter operations: activation flags,
which sub-driver tables carry the handler, and each handler's return
value. -/
structure SchedCtx where
  opened : Backend → Bool
  hasGet : Backend → Bool
  hasSet : Backend → Bool
  getR : Backend → Int
  setR : Backend → Int

/-- Outcome of an indexed dispatch loop over the `drivers[]` table:
either the loop completes with a return value and the sub-drivers
invoked in order, or it evaluates `drivers[i]->handler` on an empty
`drivers[]` slot — a NULL-pointer dereference, modelled as `crash`,
recording the sub-drivers invoked before the dereference. -/
inductive ChainOutcome where
  | done (ret : Int) (invoked : List Backend)
  | crash (invoked : List Backend)
deriving DecidableEq, Repr

/-- The indexed loop shared by the scheduler-parameter operations,
exactly as the source writes it
(`if (priv->opened[i] && drivers[i]->xenDomain...SchedulerParameters)`):
a slot whose activation flag is clear is skipped; otherwise
`drivers[i]->handler` is evaluated — a NULL dereference when that
`drivers[]` entry is empty — the slot is skipped when the handler field
is NULL, the handler is called otherwise, the loop returns 0 at the
first call returning 0, and `-1` when the order is exhausted. -/
def runChain (order : List Backend) (opened : Backend → Bool)
    (has : Backend → Bool) (res : Backend → Int) : ChainOutcome :=
  match order with
  | [] => .done (-1) []
  | b :: rest =>
    if opened b then
      if driversPresent b then
        if has b then
          if res b = 0 then .done 0 [b]
          else
            match runChain rest opened has res with
            | .done r t => .done r (b :: t)
            | .crash t => .crash (b :: t)
        else runChain rest opened has res
      else .crash []
    else runChain rest opened has res

/-- `xenUnifiedDomainGetSchedulerParametersFlags` (lines 1619-1638):
forward loop over the registry slot order, first handler returning 0
wins. -/
def xenUnifiedDomainGetSchedulerParametersFlags (c : SchedCtx) (flags : Nat) :
    ChainOutcome :=
  if flags ≠ 0 then .done (-1) []
  else runChain registryOrder c.opened c.hasGet c.getR

/-- `xenUnifiedDomainSetSchedulerParametersFlags` (lines 1649-1670):
loop from `XEN_UNIFIED_NR_DRIVERS - 1` down to 0 ("do the hypervisor
call last to get better error"), first handler returning 0 wins. -/
def xenUnifiedDomainSetSchedulerParametersFlags (c : SchedCtx) (flags : Nat) :
    ChainOutcome :=
  if flags ≠ 0 then .done (-1) []
  else runChain registryOrder.reverse c.opened c.hasSet c.setR

/-! ## Domain Info Tracker (`xenUnifiedAddDomainInfo`, `xenUnifiedRemoveDomainInfo`) -/

/-- One entry of the domain info list: numeric id, name, UUID
(`VIR_UUID_BUFLEN` bytes, modelled as a byte list compared like
`memcmp`). -/
structure DomainInfo where
  id : Int
  name : String
  uuid : List Nat
deriving DecidableEq, Repr

/-- `xenUnifiedAddDomainInfo` (lines 2293-2333): linear scan for an
existing entry with the same name and UUID; reject (`-1`, list
untouched, modelled as `none`) when found, otherwise append.  Allocation
failures are not modelled. -/
def xenUnifiedAddDomainInfo (l : List DomainInfo) (id : Int) (name : String)
    (uuid : List Nat) : Option (List DomainInfo) :=
  if l.any (fun d => d.name == name && d.uuid == uuid) then none
  else some (l ++ [⟨id, name, uuid⟩])

/-- `xenUnifiedRemoveDomainInfo` (lines 2342-2372): remove the first
entry matching id, name and UUID, compacting the rest in order; `none`
(`-1`) when no entry matches. -/
def xenUnifiedRemoveDomainInfo (l : List DomainInfo) (id : Int) (name : String)
    (uuid : List Nat) : Option (List DomainInfo) :=
  match l with
  | [] => none
  | d :: rest =>
    if d.id == id && d.name == name && d.uuid == uuid then some rest
    else (xenUnifiedRemoveDomainInfo rest id name uuid).map (d :: ·)

/-- The Tracker invariant: the (name, uuid) pair is unique across the
collection. -/
def PairUnique (l : List DomainInfo) : Prop :=
  l.Pairwise fun a b => ¬(a.name = b.name ∧ a.uuid = b.uuid)

/-- An add or remove request against the Tracker. -/
inductive TrackerOp where
  | add (id : Int) (name : String) (uuid : List Nat)
  | remove (id : Int) (name : String) (uuid : List Nat)

/-- Apply one Tracker request; a rejected request leaves the collection
unchanged (the C functions return `-1` without modifying the list). -/
def applyTrackerOp (l : List DomainInfo) : TrackerOp → List DomainInfo
  | .add id name uuid => (xenUnifiedAddDomainInfo l id name uuid).getD l
  | .remove id name uuid => (xenUnifiedRemoveDomainInfo l id name uuid).getD l

/-- Apply a sequence of Tracker requests in order. -/
def applyTrackerOps (ops : List TrackerOp) (l : List DomainInfo) : List DomainInfo :=
  ops.foldl applyTrackerOp l

/-! ## Managed save (`xenUnifiedDomainManagedSave`, `...HasManagedSaveImage`,
`...ManagedSaveRemove`) -/

/-- Session and filesystem state read by the managed-save operations:
the persistent-state directory, the XenD activation flag, the set of
existing file paths, and the outcome of the underlying
`xenDaemonDomainSave` call. -/
structure MSState where
  saveDir : String
  xendOpened : Bool
  files : List String
  saveOk : Bool
deriving DecidableEq, Repr

/-- `xenUnifiedDomainManagedSavePath` (lines 910-922):
`virAsprintf("%s/%s.save", priv->saveDir, dom->name)`. -/
def xenUnifiedDomainManagedSavePath (saveDir name : String) : String :=
  saveDir ++ "/" ++ name ++ ".save"

/-- `xenUnifiedDomainManagedSave` (lines 924-943): flags must be 0; the
save is delegated to `xenDaemonDomainSave` targeting the managed-save
path (returned as the second component; `none` when no write was
attempted). -/
def xenUnifiedDomainManagedSave (s : MSState) (domName : String) (flags : Nat) :
    Int × Option String :=
  if flags ≠ 0 then (-1, none)
  else
    let name := xenUnifiedDomainManagedSavePath s.saveDir domName
    if s.xendOpened then ((if s.saveOk then 0 else -1), some name)
    else (-1, none)

/-- `xenUnifiedDomainHasManagedSaveImage` (lines 945-961): flags must be
0; returns `virFileExists` on the managed-save path (the path consulted
is the second component). -/
def xenUnifiedDomainHasManagedSaveImage (s : MSState) (domName : String) (flags : Nat) :
    Int × Option String :=
  if flags ≠ 0 then (-1, none)
  else
    let name := xenUnifiedDomainManagedSavePath s.saveDir domName
    ((if s.files.contains name then 1 else 0), some name)

/-- `xenUnifiedDomainManagedSaveRemove` (lines 963-979): flags must be 0;
`unlink` of the managed-save path (0 when the file existed, -1
otherwise); returns the path unlinked and the resulting file set. -/
def xenUnifiedDomainManagedSaveRemove (s : MSState) (domName : String) (flags : Nat) :
    Int × Option String × List String :=
  if flags ≠ 0 then (-1, none, s.files)
  else
    let name := xenUnifiedDomainManagedSavePath s.saveDir domName
    ((if s.files.contains name then 0 else -1), some name, s.files.erase name)

/-! ## Node device operations (`xenUnifiedNodeDeviceDetachFlags`,
`xenUnifiedNodeDeviceReAttach`, `xenUnifiedNodeDeviceAssignedDomainId`) -/

/-- Hexadecimal rendering of a natural number (lower case, no padding),
as `%x` prints it. -/
def hexStr (n : Nat) : String :=
  String.mk (Nat.toDigits 16 n)

/-- Zero-padded hexadecimal rendering of width `w`, as `%0wx` prints
it. -/
def hexPad (w n : Nat) : String :=
  let s := hexStr n
  String.mk (List.replicate (w - s.length) (Char.ofNat 48)) ++ s

/-- The `"%04x:%02x:%02x.%0x"` bdf string of
`xenUnifiedNodeDeviceAssignedDomainId` (lines 1983-1984). -/
def bdfString (domain bus slot function : Nat) : String :=
  hexPad 4 domain ++ ":" ++ hexPad 2 bus ++ ":" ++ hexPad 2 slot ++ "." ++ hexStr function

/-- State read by the node-device operations: the PCI address extracted
from the device descriptor (`xenUnifiedNodeDeviceGetPciInfo`; `none` =
not a PCI device or unparsable), the active domain id list
(`xenUnifiedConnectListDomains` via xenstore), the per-domain PCI
assignment lookup (`xenStoreDomainGetPCIID`, keyed by domain id and bdf
string), and the outcomes of the external PCI-layer calls. -/
structure NodeDevCtx where
  pciInfo : Option (Nat × Nat × Nat × Nat)
  activeDomains : List Int
  pciAssignment : Int → String → Option String
  pciNewOk : Bool
  detachOk : Bool
  reattachOk : Bool

/-- `xenUnifiedNodeDeviceAssignedDomainId` (lines 1952-2008): list the
active domains, extract the device's PCI address, format the bdf string,
and return the first active domain id whose assignment lookup matches;
`-1` when none does or a step fails. -/
def xenUnifiedNodeDeviceAssignedDomainId (c : NodeDevCtx) : Int :=
  match c.pciInfo with
  | none => -1
  | some (d, b, s, f) =>
    let bdf := bdfString d b s f
    match c.activeDomains.find? (fun id => (c.pciAssignment id bdf).isSome) with
    | some id => id
    | none => -1

/-- `xenUnifiedNodeDeviceDetachFlags` (lines 1911-1944): flags must be 0;
extract the PCI address, build the PCI device object, require a null
driver name (the stub driver is always pciback), then
`virPCIDeviceDetach`.  No assignment check is made. -/
def xenUnifiedNodeDeviceDetachFlags (c : NodeDevCtx) (driverName : Option String)
    (flags : Nat) : Int :=
  if flags ≠ 0 then -1
  else
    match c.pciInfo with
    | none => -1
    | some _ =>
      if !c.pciNewOk then -1
      else
        match driverName with
        | some _ => -1
        | none => if c.detachOk then 0 else -1

/-- `xenUnifiedNodeDeviceReAttach` (lines 2010-2040): extract the PCI
address, build the PCI device object, fail when the device is assigned
to an active guest, then `virPCIDeviceReattach`. -/
def xenUnifiedNodeDeviceReAttach (c : NodeDevCtx) : Int :=
  match c.pciInfo with
  | none => -1
  | some _ =>
    if !c.pciNewOk then -1
    else if 0 ≤ xenUnifiedNodeDeviceAssignedDomainId c then -1
    else if c.reattachOk then 0 else -1

/-! ## Feature support (`xenUnifiedConnectSupportsFeature`) -/

/-- Modelled from the spec: the feature identifiers
`VIR_DRV_FEATURE_MIGRATION_V1` and `VIR_DRV_FEATURE_MIGRATION_DIRECT`
from the internal driver header (not part of `src/`). -/
def VIR_DRV_FEATURE_MIGRATION_V1 : Int := 1

/-- Modelled from the spec: see `VIR_DRV_FEATURE_MIGRATION_V1`. -/
def VIR_DRV_FEATURE_MIGRATION_DIRECT : Int := 5

/-- `xenUnifiedConnectSupportsFeature` (lines 498-509): the connection
argument is unused (`ATTRIBUTE_UNUSED`); the switch returns 1 for
migration-v1 and direct-migration, 0 otherwise. -/
def xenUnifiedConnectSupportsFeature {α : Type} (_conn : α) (feature : Int) : Int :=
  if feature = VIR_DRV_FEATURE_MIGRATION_V1 ∨ feature = VIR_DRV_FEATURE_MIGRATION_DIRECT
  then 1 else 0

/-! ## Theorems -/

/-- Claim C10: the connection's supports-feature query returns 1 exactly
when the feature is migration-v1 or direct-migration and 0 for every
other feature, and the answer is a pure function of the feature
identifier, independent of the connection state and consulting no
backend. -/
theorem connectSupportsFeature_spec {α β : Type} (c : α) (c2 : β) (f : Int) :
    xenUnifiedConnectSupportsFeature c f = xenUnifiedConnectSupportsFeature c2 f ∧
    (xenUnifiedConnectSupportsFeature c f = 1 ↔
      f = VIR_DRV_FEATURE_MIGRATION_V1 ∨ f = VIR_DRV_FEATURE_MIGRATION_DIRECT) ∧
    (f ≠ VIR_DRV_FEATURE_MIGRATION_V1 → f ≠ VIR_DRV_FEATURE_MIGRATION_DIRECT →
      xenUnifiedConnectSupportsFeature c f = 0) := by
  unfold xenUnifiedConnectSupportsFeature
  split_ifs with h
  · exact ⟨rfl, by simp [h], fun h1 h2 => by rcases h with h | h <;> simp_all⟩
  · exact ⟨rfl, by simp [h], fun _ _ => rfl⟩

/-- Witness for `connectSupportsFeature_spec` at feature 3
(migration-v2, an unsupported feature). -/
theorem connectSupportsFeature_spec_witness :
    xenUnifiedConnectSupportsFeature () 3 = 0 :=
  (connectSupportsFeature_spec () true 3).2.2 (by decide) (by decide)

/-- Claim C9: managed-save writes to `{state-dir}/{domain-name}.save`,
has-managed-save returns exactly whether a file exists at that path, and
remove-managed-save unlinks exactly that path — all three operations
agree on the same deterministic path for the same domain name. -/
theorem managedSave_path_agreement (s : MSState) (dn : String) :
    xenUnifiedDomainManagedSavePath s.saveDir dn = s.saveDir ++ "/" ++ dn ++ ".save" ∧
    (s.xendOpened = true →
      (xenUnifiedDomainManagedSave s dn 0).2
        = some (xenUnifiedDomainManagedSavePath s.saveDir dn)) ∧
    (xenUnifiedDomainHasManagedSaveImage s dn 0).2
      = some (xenUnifiedDomainManagedSavePath s.saveDir dn) ∧
    ((xenUnifiedDomainHasManagedSaveImage s dn 0).1 = 1 ↔
      xenUnifiedDomainManagedSavePath s.saveDir dn ∈ s.files) ∧
    (xenUnifiedDomainManagedSaveRemove s dn 0).2.1
      = some (xenUnifiedDomainManagedSavePath s.saveDir dn) ∧
    (xenUnifiedDomainManagedSaveRemove s dn 0).2.2
      = s.files.erase (xenUnifiedDomainManagedSavePath s.saveDir dn) := by
  refine ⟨rfl, ?_, ?_, ?_, ?_, ?_⟩
  · intro hx
    simp [xenUnifiedDomainManagedSave, hx]
  · simp [xenUnifiedDomainHasManagedSaveImage]
  · by_cases hc : s.files.contains (xenUnifiedDomainManagedSavePath s.saveDir dn)
    · simp [xenUnifiedDomainHasManagedSaveImage, hc, List.elem_iff.mp hc]
    · simp [xenUnifiedDomainHasManagedSaveImage, hc]
  · simp [xenUnifiedDomainManagedSaveRemove]
  · simp [xenUnifiedDomainManagedSaveRemove]

/-- Witness for `managedSave_path_agreement` on a session with XenD
activated. -/
theorem managedSave_path_agreement_witness :
    (xenUnifiedDomainManagedSave ⟨"/var/lib/libvirt/xen/save", true, [], true⟩ "vm1" 0).2
      = some "/var/lib/libvirt/xen/save/vm1.save" :=
  (managedSave_path_agreement ⟨"/var/lib/libvirt/xen/save", true, [], true⟩ "vm1").2.1 rfl

/-- Claim C6: the VCPU-count setter rejects flag words with neither the
live nor the config bit, flag words with both the maximum and live bits,
and counts that are zero or outside the unsigned-16-bit range, with
`VIR_ERR_INVALID_ARG` and without consulting any backend. -/
theorem setVcpusFlags_validation (c : VcpuCtx) (n flags : Nat)
    (h : flags &&& (VIR_DOMAIN_VCPU_LIVE ||| VIR_DOMAIN_VCPU_CONFIG) = 0 ∨
         flags &&& (VIR_DOMAIN_VCPU_MAXIMUM ||| VIR_DOMAIN_VCPU_LIVE)
           = VIR_DOMAIN_VCPU_MAXIMUM ||| VIR_DOMAIN_VCPU_LIVE ∨
         n = 0 ∨ 65536 ≤ n) :
    xenUnifiedDomainSetVcpusFlags c n flags = ⟨-1, some .invalidArg, []⟩ := by
  unfold xenUnifiedDomainSetVcpusFlags
  split_ifs with h1 h2 h3
  · rfl
  · rfl
  · rfl
  · exfalso
    rcases h with h | h | h | h
    · exact h2 (Or.inl h)
    · exact h2 (Or.inr h)
    · exact h3 (Or.inl h)
    · exact h3 (Or.inr (by omega))

/-- Witness for `setVcpusFlags_validation`: a zero VCPU count is
rejected. -/
theorem setVcpusFlags_validation_witness :
    xenUnifiedDomainSetVcpusFlags ⟨true, true, 0, 0, true, 0, 0, none⟩ 0 1
      = ⟨-1, some .invalidArg, []⟩ :=
  setVcpusFlags_validation ⟨true, true, 0, 0, true, 0, 0, none⟩ 0 1
    (Or.inr (Or.inr (Or.inl rfl)))

/-- Claim C4: in the Pattern-A VCPU dispatch chains, a soft decline (the
`-2` sentinel) from the XenD candidate followed by a success from the XM
candidate makes the dispatcher return the XM result without invoking the
hypervisor candidate, and the `-2` sentinel is never the value returned
to the caller. -/
theorem vcpuDispatch_fallback (c : VcpuCtx) (flags : Nat)
    (hxe : c.openedXend = true) (hxm : c.openedXm = true)
    (hds : c.xendSetR = -2) (hss : c.xmSetR = 0)
    (hdg : c.xendGetR = -2) (hsg : 0 ≤ c.xmGetR) :
    setVcpusResolve c flags = ⟨0, none, [Backend.xend, Backend.xm]⟩ ∧
    getVcpusResolve c flags = ⟨c.xmGetR, none, [Backend.xend, Backend.xm]⟩ ∧
    Backend.hypervisor ∉ (setVcpusResolve c flags).invoked ∧
    Backend.hypervisor ∉ (getVcpusResolve c flags).invoked ∧
    (∀ (c2 : VcpuCtx) (f2 : Nat),
      (setVcpusResolve c2 f2).ret ≠ -2 ∧ (getVcpusResolve c2 f2).ret ≠ -2) := by
  have hgne : c.xmGetR ≠ -2 := by omega
  have hs : setVcpusResolve c flags = ⟨0, none, [Backend.xend, Backend.xm]⟩ := by
    simp [setVcpusResolve, hxe, hxm, hds, hss]
  have hg : getVcpusResolve c flags = ⟨c.xmGetR, none, [Backend.xend, Backend.xm]⟩ := by
    simp [getVcpusResolve, hxe, hxm, hdg, hgne]
  refine ⟨hs, hg, by simp [hs], by simp [hg], fun c2 f2 => ⟨?_, ?_⟩⟩
  · unfold setVcpusResolve
    split_ifs <;> simp_all
  · unfold getVcpusResolve
    rcases hm : c2.hvMax with _ | m <;> split_ifs <;> simp_all

/-- Witness for `vcpuDispatch_fallback` on a session where XenD declines
and XM succeeds. -/
theorem vcpuDispatch_fallback_witness :
    setVcpusResolve ⟨true, true, -2, 0, true, -2, 4, none⟩ 1
      = ⟨0, none, [Backend.xend, Backend.xm]⟩ :=
  (vcpuDispatch_fallback ⟨true, true, -2, 0, true, -2, 4, none⟩ 1
    rfl rfl rfl rfl rfl (by decide)).1

/-- Counterexample to claim C3: with the negotiated version below the
legacy threshold, a memory-limit change on an active domain (id 5) is
routed to the hypervisor backend, not to the legacy file-store — the
target backend is not chosen from the version indicator alone. -/
theorem patternB_routing_counterexample :
    (2 : Int) < XEND_CONFIG_VERSION_3_0_4 ∧
    xenUnifiedDomainSetMaxMemoryRoute ⟨2, true, true⟩ 5 = Route.hypervisor ∧
    xenUnifiedDomainSetMaxMemoryRoute ⟨2, true, true⟩ 5 ≠ Route.xm := by decide

/-- Claim C3 (amended): the two version ranges partition all versions
with no overlap and no gap; the autostart operations are routed by the
version alone (below the threshold never to XenD, at or above never to
XM); memory-limit changes are routed by the version alone only for
inactive domains (below the threshold to XM, at or above to XenD), while
active domains always go to the hypervisor backend; XML retrieval obeys
the version gate for inactive domains and never uses XM at or above the
threshold. -/
theorem patternB_version_routing (p : PatternBState) (domId : Int) :
    (p.xendConfigVersion < XEND_CONFIG_VERSION_3_0_4 ∨
      XEND_CONFIG_VERSION_3_0_4 ≤ p.xendConfigVersion) ∧
    ¬(p.xendConfigVersion < XEND_CONFIG_VERSION_3_0_4 ∧
      XEND_CONFIG_VERSION_3_0_4 ≤ p.xendConfigVersion) ∧
    (p.xendConfigVersion < XEND_CONFIG_VERSION_3_0_4 →
      xenUnifiedDomainGetAutostartRoute p ≠ Route.xend ∧
      xenUnifiedDomainSetAutostartRoute p ≠ Route.xend ∧
      (domId < 0 → xenUnifiedDomainSetMaxMemoryRoute p domId = Route.xm) ∧
      (domId = -1 → xenUnifiedDomainGetXMLDescRoute p domId ≠ Route.xend)) ∧
    (XEND_CONFIG_VERSION_3_0_4 ≤ p.xendConfigVersion →
      xenUnifiedDomainGetAutostartRoute p ≠ Route.xm ∧
      xenUnifiedDomainSetAutostartRoute p ≠ Route.xm ∧
      (domId < 0 → xenUnifiedDomainSetMaxMemoryRoute p domId = Route.xend) ∧
      xenUnifiedDomainGetXMLDescRoute p domId ≠ Route.xm) ∧
    (0 ≤ domId → xenUnifiedDomainSetMaxMemoryRoute p domId = Route.hypervisor) := by
  unfold xenUnifiedDomainGetAutostartRoute xenUnifiedDomainSetAutostartRoute
    xenUnifiedDomainSetMaxMemoryRoute xenUnifiedDomainGetXMLDescRoute
  refine ⟨by omega, by omega, fun hlt => ⟨?_, ?_, fun hneg => ?_, fun hid => ?_⟩,
    fun hge => ⟨?_, ?_, fun hneg => ?_, ?_⟩, fun hpos => ?_⟩
  · rw [if_pos hlt]
    split_ifs <;> simp
  · rw [if_pos hlt]
    split_ifs <;> simp
  · rw [if_pos hneg, if_pos hlt]
  · rw [if_pos ⟨hid, hlt⟩]
    split_ifs <;> simp
  · rw [if_neg (by omega)]
    split_ifs <;> simp
  · rw [if_neg (by omega)]
    split_ifs <;> simp
  · rw [if_pos hneg, if_neg (by omega)]
  · rw [if_neg (fun hand => absurd hand.2 (by omega))]
    split_ifs <;> simp
  · rw [if_neg (by omega)]

/-- Witness for `patternB_version_routing` on a legacy-version session
and an inactive domain. -/
theorem patternB_version_routing_witness :
    xenUnifiedDomainSetMaxMemoryRoute ⟨2, true, true⟩ (-1) = Route.xm :=
  ((patternB_version_routing ⟨2, true, true⟩ (-1)).2.2.1 (by decide)).2.2.1 (by decide)

/-- Counterexample to claim C2: a PCI device assigned to running domain
5 (per the active-domain scan and the per-domain assignment lookup) is
still detached successfully — the detach operation performs no
assignment check. -/
theorem nodeDeviceDetach_counterexample :
    xenUnifiedNodeDeviceAssignedDomainId
      ⟨some (0, 0, 3, 0), [5], fun d _ => if d = 5 then some "ref" else none,
        true, true, true⟩ = 5 ∧
    xenUnifiedNodeDeviceDetachFlags
      ⟨some (0, 0, 3, 0), [5], fun d _ => if d = 5 then some "ref" else none,
        true, true, true⟩ none 0 = 0 := by
  constructor
  · simp [xenUnifiedNodeDeviceAssignedDomainId, List.find?]
  · rfl

/-- Claim C2 (amended): it is the node-device re-attach operation that
fails whenever the device is currently assigned to a running domain (as
determined by the active-domain scan and the per-domain assignment
lookup); the detach operation makes no assignment check — its outcome is
independent of the active-domain list and the assignment lookup. -/
theorem nodeDevice_assignment_check (c : NodeDevCtx) :
    (0 ≤ xenUnifiedNodeDeviceAssignedDomainId c →
      xenUnifiedNodeDeviceReAttach c = -1) ∧
    (∀ (c2 : NodeDevCtx) (dn : Option String) (fl : Nat),
      c.pciInfo = c2.pciInfo → c.pciNewOk = c2.pciNewOk → c.detachOk = c2.detachOk →
      xenUnifiedNodeDeviceDetachFlags c dn fl = xenUnifiedNodeDeviceDetachFlags c2 dn fl) := by
  constructor
  · intro h
    unfold xenUnifiedNodeDeviceReAttach
    rcases hp : c.pciInfo with _ | ⟨d, b, s, f⟩
    · rfl
    · split_ifs <;> rfl
  · intro c2 dn fl h1 h2 h3
    unfold xenUnifiedNodeDeviceDetachFlags
    rw [h1, h2, h3]

/-- Witness for `nodeDevice_assignment_check`: re-attach of the device
assigned to domain 5 fails. -/
theorem nodeDevice_assignment_check_witness :
    xenUnifiedNodeDeviceReAttach
      ⟨some (0, 0, 3, 0), [5], fun d _ => if d = 5 then some "ref" else none,
        true, true, true⟩ = -1 :=
  (nodeDevice_assignment_check
      ⟨some (0, 0, 3, 0), [5], fun d _ => if d = 5 then some "ref" else none,
        true, true, true⟩).1
    (by simp [xenUnifiedNodeDeviceAssignedDomainId, List.find?])

theorem addDomainInfo_eq_none_iff (l : List DomainInfo) (id : Int) (n : String)
    (u : List Nat) :
    xenUnifiedAddDomainInfo l id n u = none ↔ ∃ d ∈ l, d.name = n ∧ d.uuid = u := by
  unfold xenUnifiedAddDomainInfo
  split_ifs with h
  · simp only [List.any_eq_true, Bool.and_eq_true, beq_iff_eq] at h
    exact iff_of_true rfl h
  · simp only [List.any_eq_true, Bool.and_eq_true, beq_iff_eq] at h
    exact iff_of_false (by simp) h

theorem removeDomainInfo_mem (l : List DomainInfo) (id : Int) (n : String) (u : List Nat)
    (l2 : List DomainInfo) (h : xenUnifiedRemoveDomainInfo l id n u = some l2) :
    ∃ d ∈ l, d.id = id ∧ d.name = n ∧ d.uuid = u := by
  induction l generalizing l2 with
  | nil => simp [xenUnifiedRemoveDomainInfo] at h
  | cons d rest ih =>
    rw [xenUnifiedRemoveDomainInfo] at h
    split_ifs at h with hd
    · simp only [Bool.and_eq_true, beq_iff_eq] at hd
      exact ⟨d, List.mem_cons_self d rest, hd.1.1, hd.1.2, hd.2⟩
    · obtain ⟨r2, hrem, _⟩ := Option.map_eq_some'.mp h
      obtain ⟨w, hw, hprops⟩ := ih r2 hrem
      exact ⟨w, List.mem_cons_of_mem d hw, hprops⟩

theorem removeDomainInfo_sublist (l : List DomainInfo) (id : Int) (n : String)
    (u : List Nat) (l2 : List DomainInfo)
    (h : xenUnifiedRemoveDomainInfo l id n u = some l2) : l2.Sublist l := by
  induction l generalizing l2 with
  | nil => simp [xenUnifiedRemoveDomainInfo] at h
  | cons d rest ih =>
    rw [xenUnifiedRemoveDomainInfo] at h
    split_ifs at h with hd
    · injection h with h2
      subst h2
      exact List.Sublist.cons d (List.Sublist.refl rest)
    · obtain ⟨r2, hrem, h2⟩ := Option.map_eq_some'.mp h
      subst h2
      exact List.Sublist.cons₂ d (ih r2 hrem)

theorem removeDomainInfo_no_pair (l : List DomainInfo) (id : Int) (n : String)
    (u : List Nat) (l2 : List DomainInfo) (hU : PairUnique l)
    (h : xenUnifiedRemoveDomainInfo l id n u = some l2) :
    ∀ e ∈ l2, ¬(e.name = n ∧ e.uuid = u) := by
  induction l generalizing l2 with
  | nil => simp [xenUnifiedRemoveDomainInfo] at h
  | cons d rest ih =>
    rw [PairUnique, List.pairwise_cons] at hU
    rw [xenUnifiedRemoveDomainInfo] at h
    split_ifs at h with hd
    · injection h with h2
      subst h2
      simp only [Bool.and_eq_true, beq_iff_eq] at hd
      rintro e he ⟨hen, heu⟩
      exact hU.1 e he ⟨by rw [hd.1.2, hen], by rw [hd.2, heu]⟩
    · obtain ⟨r2, hrem, h2⟩ := Option.map_eq_some'.mp h
      subst h2
      intro e he
      rcases List.mem_cons.mp he with rfl | he2
      · rintro ⟨hen, heu⟩
        obtain ⟨w, hw, _, hwn, hwu⟩ := removeDomainInfo_mem rest id n u r2 hrem
        exact hU.1 w hw ⟨by rw [hen, hwn], by rw [heu, hwu]⟩
      · exact ih r2 hU.2 hrem e he2

theorem addDomainInfo_of_no_pair (l : List DomainInfo) (id : Int) (n : String)
    (u : List Nat) (h : ∀ e ∈ l, ¬(e.name = n ∧ e.uuid = u)) :
    xenUnifiedAddDomainInfo l id n u = some (l ++ [⟨id, n, u⟩]) := by
  unfold xenUnifiedAddDomainInfo
  rw [if_neg]
  intro hany
  simp only [List.any_eq_true, Bool.and_eq_true, beq_iff_eq] at hany
  obtain ⟨d, hd, hdn, hdu⟩ := hany
  exact h d hd ⟨hdn, hdu⟩

theorem addDomainInfo_preserves (l : List DomainInfo) (id : Int) (n : String)
    (u : List Nat) (l2 : List DomainInfo) (hU : PairUnique l)
    (h : xenUnifiedAddDomainInfo l id n u = some l2) : PairUnique l2 := by
  unfold xenUnifiedAddDomainInfo at h
  split_ifs at h with hd
  · injection h with h2
    subst h2
    simp only [List.any_eq_true, Bool.and_eq_true, beq_iff_eq] at hd
    rw [PairUnique, List.pairwise_append]
    refine ⟨hU, List.pairwise_singleton _ _, ?_⟩
    rintro a ha b hb ⟨han, hau⟩
    rcases List.mem_singleton.mp hb with rfl
    exact hd ⟨a, ha, han, hau⟩

theorem removeDomainInfo_preserves (l : List DomainInfo) (id : Int) (n : String)
    (u : List Nat) (l2 : List DomainInfo) (hU : PairUnique l)
    (h : xenUnifiedRemoveDomainInfo l id n u = some l2) : PairUnique l2 :=
  List.Pairwise.sublist (removeDomainInfo_sublist l id n u l2 h) hU

theorem applyTrackerOp_preserves (l : List DomainInfo) (op : TrackerOp)
    (hU : PairUnique l) : PairUnique (applyTrackerOp l op) := by
  cases op with
  | add id n u =>
    show PairUnique ((xenUnifiedAddDomainInfo l id n u).getD l)
    cases h : xenUnifiedAddDomainInfo l id n u with
    | none => exact hU
    | some l2 => exact addDomainInfo_preserves l id n u l2 hU h
  | remove id n u =>
    show PairUnique ((xenUnifiedRemoveDomainInfo l id n u).getD l)
    cases h : xenUnifiedRemoveDomainInfo l id n u with
    | none => exact hU
    | some l2 => exact removeDomainInfo_preserves l id n u l2 hU h

theorem applyTrackerOps_preserves (ops : List TrackerOp) (l : List DomainInfo)
    (hU : PairUnique l) : PairUnique (applyTrackerOps ops l) := by
  induction ops generalizing l with
  | nil => exact hU
  | cons op rest ih => exact ih (applyTrackerOp l op) (applyTrackerOp_preserves l op hU)

/-- Claim C7: the Tracker's add rejects an entry (leaving the collection
unchanged) exactly when an existing entry already has the same (name,
uuid) pair; after removing the entry matching all three fields, a
subsequent add with the same (name, uuid) succeeds; and the (name, uuid)
pair stays unique across the collection through every add/remove
sequence starting from the empty collection. -/
theorem trackerUniqueness (l : List DomainInfo) (id id2 : Int) (n : String)
    (u : List Nat) (hU : PairUnique l) :
    (xenUnifiedAddDomainInfo l id n u = none ↔ ∃ d ∈ l, d.name = n ∧ d.uuid = u) ∧
    (∀ l2, xenUnifiedRemoveDomainInfo l id n u = some l2 →
      xenUnifiedAddDomainInfo l2 id2 n u = some (l2 ++ [⟨id2, n, u⟩])) ∧
    (∀ l2, xenUnifiedAddDomainInfo l id n u = some l2 → PairUnique l2) ∧
    (∀ l2, xenUnifiedRemoveDomainInfo l id n u = some l2 → PairUnique l2) ∧
    (∀ ops : List TrackerOp, PairUnique (applyTrackerOps ops [])) := by
  refine ⟨addDomainInfo_eq_none_iff l id n u, ?_, ?_, ?_, ?_⟩
  · intro l2 h
    exact addDomainInfo_of_no_pair l2 id2 n u (removeDomainInfo_no_pair l id n u l2 hU h)
  · intro l2 h
    exact addDomainInfo_preserves l id n u l2 hU h
  · intro l2 h
    exact removeDomainInfo_preserves l id n u l2 hU h
  · intro ops
    exact applyTrackerOps_preserves ops [] (List.Pairwise.nil)

/-- Witness for `trackerUniqueness`: a second add with the same (name,
uuid) pair is rejected as a duplicate. -/
theorem trackerUniqueness_witness :
    xenUnifiedAddDomainInfo [⟨1, "vm1", [7]⟩] 2 "vm1" [7] = none :=
  (trackerUniqueness [⟨1, "vm1", [7]⟩] 2 3 "vm1" [7]
      (List.pairwise_singleton _ _)).1.mpr
    ⟨⟨1, "vm1", [7]⟩, by simp, rfl, rfl⟩

/-- Claim C8 (code bug): the intended per-operation iteration policy
(setter in reverse registry order, "hypervisor last to get better
error"; getter forward) is unreachable in the code as written: the
loops dereference `drivers[i]` whenever `priv->opened[i]` is set, and
the `drivers[]` entries for the XS and inotify slots are NULL while the
XS open is mandatory in every session — so the setter crashes at the XS
slot before it can ever reach the XenD or hypervisor candidates (for
any state with XS opened, inotify closed, and no XM success), and on a
full session with all handlers failing the setter crashes after
invoking only XM and the getter crashes after invoking the hypervisor
and XenD. -/
theorem schedulerParameters_null_table_crash :
    (∀ c : SchedCtx, c.opened Backend.xs = true → c.opened Backend.inotify = false →
      (c.opened Backend.xm = false ∨ c.hasSet Backend.xm = false ∨
        c.setR Backend.xm ≠ 0) →
      ∃ t, xenUnifiedDomainSetSchedulerParametersFlags c 0 = ChainOutcome.crash t ∧
        Backend.xend ∉ t ∧ Backend.hypervisor ∉ t) ∧
    xenUnifiedDomainSetSchedulerParametersFlags
      ⟨fun b => match b with | .inotify => false | _ => true,
        fun _ => true, fun _ => true, fun _ => -1, fun _ => -1⟩ 0
      = ChainOutcome.crash [Backend.xm] ∧
    xenUnifiedDomainGetSchedulerParametersFlags
      ⟨fun b => match b with | .inotify => false | _ => true,
        fun _ => true, fun _ => true, fun _ => -1, fun _ => -1⟩ 0
      = ChainOutcome.crash [Backend.hypervisor, Backend.xend] := by
  refine ⟨?_, by decide, by decide⟩
  intro c hxs hino hdisj
  rw [xenUnifiedDomainSetSchedulerParametersFlags, if_neg (by decide : ¬(0 : Nat) ≠ 0)]
  rw [show registryOrder.reverse
      = [Backend.inotify, Backend.xm, Backend.xs, Backend.xend, Backend.hypervisor]
      from rfl]
  rcases hdisj with h | h | h
  · exact ⟨[], by simp [runChain, hino, h, hxs, driversPresent], by simp, by simp⟩
  · by_cases hxm : c.opened Backend.xm = true
    · exact ⟨[], by simp [runChain, hino, hxm, h, hxs, driversPresent], by simp, by simp⟩
    · exact ⟨[], by simp [runChain, hino, hxm, hxs, driversPresent], by simp, by simp⟩
  · by_cases hxm : c.opened Backend.xm = true
    · by_cases hhs : c.hasSet Backend.xm = true
      · exact ⟨[Backend.xm],
          by simp [runChain, hino, hxm, hhs, h, hxs, driversPresent],
          by simp, by simp⟩
      · exact ⟨[], by simp [runChain, hino, hxm, hhs, hxs, driversPresent], by simp, by simp⟩
    · exact ⟨[], by simp [runChain, hino, hxm, hxs, driversPresent], by simp, by simp⟩

/-- Witness for `schedulerParameters_null_table_crash` on a full
session (hypervisor, XenD, XS, XM activated; inotify not compiled in)
whose XM setter handler fails. -/
theorem schedulerParameters_null_table_crash_witness :
    ∃ t, xenUnifiedDomainSetSchedulerParametersFlags
      ⟨fun b => match b with | .inotify => false | _ => true,
        fun _ => true, fun _ => true, fun _ => -1, fun _ => -1⟩ 0
      = ChainOutcome.crash t ∧ Backend.xend ∉ t ∧ Backend.hypervisor ∉ t :=
  schedulerParameters_null_table_crash.1
    ⟨fun b => match b with | .inotify => false | _ => true,
      fun _ => true, fun _ => true, fun _ => -1, fun _ => -1⟩
    rfl rfl (Or.inr (Or.inr (by decide)))

/-- Claim C5: for a privileged open with a target URI, the prober rules
(in rule order) hold: a scheme that is neither of the two accepted
schemes yields Decline; with an accepted scheme, a path that is present
and neither empty nor "/" yields Error; a path that is absent, empty or
"/" never yields Error; and, the path being acceptable, a remote server
on the primary (xen) scheme yields Decline. -/
theorem connectOpenDecision_uri_rules (u : XenURI) (probeXen withLibxl xendRunning : Bool) :
    (∀ s, u.scheme = some s → asciiLower s ≠ "xen" → asciiLower s ≠ "http" →
      xenUnifiedConnectOpenDecision true (some u) probeXen withLibxl xendRunning
        = OpenDecision.declined) ∧
    (∀ s p, u.scheme = some s → (asciiLower s = "xen" ∨ asciiLower s = "http") →
      u.path = some p → p ≠ "" → p ≠ "/" →
      xenUnifiedConnectOpenDecision true (some u) probeXen withLibxl xendRunning
        = OpenDecision.error) ∧
    ((u.path = none ∨ u.path = some "" ∨ u.path = some "/") →
      xenUnifiedConnectOpenDecision true (some u) probeXen withLibxl xendRunning
        ≠ OpenDecision.error) ∧
    (∀ s, u.scheme = some s → asciiLower s = "xen" → u.server.isSome = true →
      (u.path = none ∨ u.path = some "" ∨ u.path = some "/") →
      xenUnifiedConnectOpenDecision true (some u) probeXen withLibxl xendRunning
        = OpenDecision.declined) := by
  obtain ⟨sch, srv, pth⟩ := u
  refine ⟨?_, ?_, ?_, ?_⟩
  · intro s hs h1 h2
    cases hs
    simp [xenUnifiedConnectOpenDecision, h1, h2]
  · intro s p hs hacc hp h1 h2
    cases hs
    cases hp
    have hcond : ¬(asciiLower s ≠ "xen" ∧ asciiLower s ≠ "http") := by
      rcases hacc with h | h <;> simp [h]
    simp only [xenUnifiedConnectOpenDecision, Bool.not_true, if_neg hcond]
    rw [if_neg (by decide : ¬(false = true))]
    rw [if_pos (by simp [bne_iff_ne, h1, h2] : ((p != "") && (p != "/")) = true)]
  · intro hgood
    rcases hgood with h | h | h <;>
      cases h <;>
      · unfold xenUnifiedConnectOpenDecision
        rcases sch with _ | s
        · simp
        · rw [if_neg (by decide : ¬((!true) = true))]
          dsimp only
          split_ifs <;> simp_all
  · intro s hs hx hsrv hgood
    cases hs
    have hcond : ¬(asciiLower s ≠ "xen" ∧ asciiLower s ≠ "http") := by simp [hx]
    simp only [xenUnifiedConnectOpenDecision]
    rw [if_neg (by decide : ¬(!true) = true)]
    dsimp only
    rw [if_neg hcond]
    rw [if_neg (by rcases hgood with h | h | h <;> (cases h; simp))]
    rw [if_pos ⟨hx, hsrv⟩]

/-- Witness for `connectOpenDecision_uri_rules`: a non-root path on the
xen scheme yields Error, and a remote server on the xen scheme with an
empty path yields Decline. -/
theorem connectOpenDecision_uri_rules_witness :
    xenUnifiedConnectOpenDecision true (some ⟨some "xen", none, some "foo"⟩)
      true false false = OpenDecision.error ∧
    xenUnifiedConnectOpenDecision true (some ⟨some "xen", some "host", some ""⟩)
      true false false = OpenDecision.declined :=
  ⟨(connectOpenDecision_uri_rules ⟨some "xen", none, some "foo"⟩ true false false).2.1
      "xen" "foo" rfl (Or.inl (by decide)) rfl (by decide) (by decide),
   (connectOpenDecision_uri_rules ⟨some "xen", some "host", some ""⟩ true false false).2.2.2
      "xen" rfl (by decide) rfl (Or.inr (Or.inl rfl))⟩

theorem unwindOrder_filter_count (f : OpenedFlags) (b : Backend) :
    (([Backend.inotify, Backend.xm, Backend.xs, Backend.xend,
        Backend.hypervisor].filter f.get).count b)
      = if f.get b then 1 else 0 := by
  obtain ⟨a1, a2, a3, a4, a5⟩ := f
  cases b <;> cases a1 <;> cases a2 <;> cases a3 <;> cases a4 <;> cases a5 <;> rfl

theorem closeSeq_append (t1 t2 : List Event) :
    closeSeq (t1 ++ t2) = closeSeq t1 ++ closeSeq t2 :=
  List.filterMap_append t1 t2 _

theorem closeSeq_unwindCloses (w : Bool) (f : OpenedFlags)
    (hiw : f.inotify = true → w = true) :
    closeSeq (unwindCloses w f)
      = [Backend.inotify, Backend.xm, Backend.xs, Backend.xend,
          Backend.hypervisor].filter f.get := by
  obtain ⟨a1, a2, a3, a4, a5⟩ := f
  cases a5 with
  | false => cases w <;> cases a1 <;> cases a2 <;> cases a3 <;> cases a4 <;> decide
  | true =>
    have hw : w = true := hiw rfl
    subst hw
    cases a1 <;> cases a2 <;> cases a3 <;> cases a4 <;> decide

theorem openError_unwindOK (w : Bool) (f : OpenedFlags) (t : List Event)
    (hct : closeSeq t = []) (hiw : f.inotify = true → w = true) :
    closeSeq (openError w f t).trace
      = [Backend.inotify, Backend.xm, Backend.xs, Backend.xend,
          Backend.hypervisor].filter (openError w f t).opened.get ∧
    (openError w f t).privFreed = true ∧
    (openError w f t).mutexDestroyed = true := by
  refine ⟨?_, rfl, rfl⟩
  show closeSeq (t ++ unwindCloses w f) = _
  rw [closeSeq_append, hct, List.nil_append]
  exact closeSeq_unwindCloses w f hiw

theorem openTail_unwindOK (cfg : OpenCfg) (f : OpenedFlags) (t : List Event)
    (hct : closeSeq t = []) (hiw : f.inotify = true → cfg.withInotify = true)
    (hfail : (openTail cfg f t).success = false) :
    closeSeq (openTail cfg f t).trace
      = [Backend.inotify, Backend.xm, Backend.xs, Backend.xend,
          Backend.hypervisor].filter (openTail cfg f t).opened.get ∧
    (openTail cfg f t).privFreed = true ∧
    (openTail cfg f t).mutexDestroyed = true := by
  unfold openTail at hfail ⊢
  split_ifs at hfail ⊢
  · exact openError_unwindOK _ _ _ hct hiw
  · exact openError_unwindOK _ _ _ hct hiw

theorem openFromXs_unwindOK (cfg : OpenCfg) (f : OpenedFlags) (t : List Event)
    (hct : closeSeq t = []) (hiw : f.inotify = true → cfg.withInotify = true)
    (hfail : (openFromXs cfg f t).success = false) :
    closeSeq (openFromXs cfg f t).trace
      = [Backend.inotify, Backend.xm, Backend.xs, Backend.xend,
          Backend.hypervisor].filter (openFromXs cfg f t).opened.get ∧
    (openFromXs cfg f t).privFreed = true ∧
    (openFromXs cfg f t).mutexDestroyed = true := by
  have hct2 : closeSeq (t ++ [Event.openB Backend.xs]) = [] := by
    rw [closeSeq_append, hct]
    rfl
  unfold openFromXs at hfail ⊢
  dsimp only at hfail ⊢
  split_ifs at hfail ⊢ with h1 h2 h3 h4 h5
  · exact openError_unwindOK _ _ _ hct hiw
  · exact openError_unwindOK _ _ _ hct2 hiw
  · exact openError_unwindOK _ _ _ hct2 hiw
  · exact openError_unwindOK _ _ _ hct2 hiw
  · refine openTail_unwindOK cfg _ _ ?_ (fun _ => h4) hfail
    rw [closeSeq_append, hct2]
    rfl
  · exact openTail_unwindOK cfg _ _ hct2 hiw hfail

theorem openTail_success (cfg : OpenCfg) (f : OpenedFlags) (t : List Event) :
    (openTail cfg f t).success = (cfg.strdupOk && cfg.mkdirOk) := by
  unfold openTail
  split_ifs <;> simp_all [openError]

theorem openFromXs_success (cfg : OpenCfg) (f : OpenedFlags) (t : List Event) :
    (openFromXs cfg f t).success
      = (cfg.xsOk && cfg.capsOk && cfg.xmloptOk &&
          (if cfg.withInotify then cfg.inotifyOk else true) &&
          cfg.strdupOk && cfg.mkdirOk) := by
  unfold openFromXs
  dsimp only
  split_ifs <;> simp_all [openError, openTail_success]

theorem openBackends_success_iff (cfg : OpenCfg) :
    (xenUnifiedConnectOpenBackends cfg).success = openAllOk cfg := by
  unfold xenUnifiedConnectOpenBackends openAllOk
  dsimp only
  split_ifs <;> simp_all [openError, openFromXs_success]

theorem openBackends_unwind (cfg : OpenCfg)
    (hfail : (xenUnifiedConnectOpenBackends cfg).success = false) :
    closeSeq (xenUnifiedConnectOpenBackends cfg).trace
      = [Backend.inotify, Backend.xm, Backend.xs, Backend.xend,
          Backend.hypervisor].filter (xenUnifiedConnectOpenBackends cfg).opened.get ∧
    (xenUnifiedConnectOpenBackends cfg).privFreed = true ∧
    (xenUnifiedConnectOpenBackends cfg).mutexDestroyed = true := by
  unfold xenUnifiedConnectOpenBackends at hfail ⊢
  dsimp only at hfail ⊢
  split_ifs at hfail ⊢
  · exact openError_unwindOK _ _ _ rfl (fun h => absurd h (by decide))
  · exact openError_unwindOK _ _ _ rfl (fun h => absurd h (by decide))
  · exact openError_unwindOK _ _ _ rfl (fun h => absurd h (by decide))
  · exact openFromXs_unwindOK cfg _ _ rfl (fun h => absurd h (by decide)) hfail
  · exact openFromXs_unwindOK cfg _ _ rfl (fun h => absurd h (by decide)) hfail

/-- Counterexample to claim C1: when the XM and XS sub-drivers have both
activated (legacy version, so XM opens before XS) and a later mandatory
step fails (capability building), the unwind closes XM before XS —
the close order is the fixed slot order inotify, XM, XS, XenD,
hypervisor, not the strict reverse of the activation order, which opened
XM before XS. -/
theorem openBackends_close_order_counterexample :
    openAllOk ⟨true, true, 2, true, true, false, true, false, true, true, true⟩ = false ∧
    (xenUnifiedConnectOpenBackends
        ⟨true, true, 2, true, true, false, true, false, true, true, true⟩).success = false ∧
    openSeq (xenUnifiedConnectOpenBackends
        ⟨true, true, 2, true, true, false, true, false, true, true, true⟩).trace
      = [Backend.hypervisor, Backend.xend, Backend.xm, Backend.xs] ∧
    closeSeq (xenUnifiedConnectOpenBackends
        ⟨true, true, 2, true, true, false, true, false, true, true, true⟩).trace
      = [Backend.xm, Backend.xs, Backend.xend, Backend.hypervisor] ∧
    closeSeq (xenUnifiedConnectOpenBackends
        ⟨true, true, 2, true, true, false, true, false, true, true, true⟩).trace
      ≠ (openSeq (xenUnifiedConnectOpenBackends
          ⟨true, true, 2, true, true, false, true, false, true, true, true⟩).trace).reverse := by
  decide

/-- Claim C1 (amended): when any mandatory open step fails, the open
returns an error, every backend whose activation flag is true at that
point is closed exactly once (no double close, no leak), the close calls
occur in the fixed order inotify, XM, XS, XenD, hypervisor (the reverse
of the registry slot order, which differs from the reverse of the
activation order when both XM and XS activated), the lock and the
Session are released, and no partially-initialized Session is returned
to the caller. -/
theorem openBackends_rollback (cfg : OpenCfg) (h : openAllOk cfg = false) :
    (xenUnifiedConnectOpenBackends cfg).success = false ∧
    (∀ b : Backend, (closeSeq (xenUnifiedConnectOpenBackends cfg).trace).count b
      = if (xenUnifiedConnectOpenBackends cfg).opened.get b then 1 else 0) ∧
    closeSeq (xenUnifiedConnectOpenBackends cfg).trace
      = [Backend.inotify, Backend.xm, Backend.xs, Backend.xend,
          Backend.hypervisor].filter (xenUnifiedConnectOpenBackends cfg).opened.get ∧
    (xenUnifiedConnectOpenBackends cfg).privFreed = true ∧
    (xenUnifiedConnectOpenBackends cfg).mutexDestroyed = true := by
  have hs : (xenUnifiedConnectOpenBackends cfg).success = false := by
    rw [openBackends_success_iff]
    exact h
  obtain ⟨h1, h2, h3⟩ := openBackends_unwind cfg hs
  refine ⟨hs, fun b => ?_, h1, h2, h3⟩
  rw [h1]
  exact unwindOrder_filter_count _ b

/-- Witness for `openBackends_rollback`: a hypervisor-open failure
yields an error with the Session released. -/
theorem openBackends_rollback_witness :
    (xenUnifiedConnectOpenBackends
        ⟨false, true, 2, true, true, true, true, false, true, true, true⟩).success = false ∧
    (xenUnifiedConnectOpenBackends
        ⟨false, true, 2, true, true, true, true, false, true, true, true⟩).privFreed = true :=
  ⟨(openBackends_rollback ⟨false, true, 2, true, true, true, true, false, true, true, true⟩
      (by decide)).1,
   (openBackends_rollback ⟨false, true, 2, true, true, true, true, false, true, true, true⟩
      (by decide)).2.2.2.1⟩

end XenUnified
